import Mathlib

/-!
Verification of the net-income calculation library (`net_income_germany`).

The Rust source is shallowly embedded as follows:
* `u32` values become `ℕ`; where the source can overflow (additions,
  multiplications, doubling), the result is reduced `% 2^32`, matching the
  wrapping semantics of release-mode Rust arithmetic, and `u32`
  subtractions are guarded exactly as in the source.
* `i32` values become `ℤ`; the narrowing casts `u32 as i32` and
  `i64 as i32` are modelled by `wrap32` (two's-complement wrap into
  `[-2^31, 2^31)`).
* `f32` values become exact rationals `ℚ`; the cast `f32 as u32` is
  modelled by `toU32` (truncation toward zero, saturating into
  `[0, 2^32)`, which is the semantics of Rust float-to-int casts).
* fallible functions return `Except String _` with the source's error
  strings; the unbounded `loop` of `calculate_reverse` is modelled with an
  explicit fuel argument, `none` meaning "still looping after that many
  iterations".
-/

/-- Rust `f32 as u32` cast: truncation toward zero, saturating to `[0, 2^32)`.
For a non-negative rational this is the floor; negative values saturate to 0. -/
def toU32 (q : ℚ) : ℕ :=
  min (Int.toNat ⌊q⌋) 4294967295

/-- Two's-complement narrowing into `i32`: used for Rust `u32 as i32` and
`i64 as i32` casts (release-mode semantics). -/
def wrap32 (x : ℤ) : ℤ :=
  (x + 2147483648) % 4294967296 - 2147483648

/-- Source `config.rs`: configuration of the state health insurance. -/
structure HealthInsuranceConfig where
  premium_general : ℚ
  premium_general_reduced : ℚ
  premium_additional : ℚ
  premium_nursing : ℚ
  premium_nursing_additional : ℚ
  min_income : ℚ
  max_income : ℚ
deriving DecidableEq, Repr

/-- Source `config.rs`: configuration of the state retirement insurance. -/
structure RetirementInsuranceConfig where
  premium : ℚ
  max_income : ℚ
deriving DecidableEq, Repr

/-- Source `config.rs`: configuration of the state unemployment insurance. -/
structure UnemploymentInsuranceConfig where
  premium : ℚ
  max_income : ℚ
deriving DecidableEq, Repr

/-- Source `config.rs`: one progressive income-tax range (`u32` limits, `f32` rates). -/
structure TaxRange where
  lower_limit : ℕ
  upper_limit : ℕ
  rate_min : ℚ
  rate_max : ℚ
deriving DecidableEq, Repr

/-- Source `config.rs`: configuration of the solidarity surtax. -/
structure SolidaryAdditionConfig where
  exemption_level : ℕ
  rate : ℚ
  max_percentage : ℚ
deriving DecidableEq, Repr

/-- Source `config.rs`: income-tax configuration (tax ranges plus surtax). -/
structure IncomeTaxConfig where
  tax_ranges : List TaxRange
  solidary_addition_config : SolidaryAdditionConfig
deriving DecidableEq, Repr

/-- Source `config.rs`: the full yearly configuration. -/
structure Config where
  health_insurance : HealthInsuranceConfig
  retirement_insurance : RetirementInsuranceConfig
  unemployment_insurance : UnemploymentInsuranceConfig
  income_tax : IncomeTaxConfig
deriving DecidableEq, Repr

/-- Source `lib.rs`: input data of a calculation (all amount fields are `u32`). -/
structure TaxData where
  income : ℕ
  expenses : ℕ
  fixed_retirement : Option ℕ
  self_employed : Bool
  married : Bool
deriving DecidableEq, Repr

/-- Source `lib.rs`: result of a calculation (`gross_income`, `net_income` are `i32`). -/
structure TaxResult where
  gross_income : ℤ
  net_income : ℤ
  social_security_taxes : ℕ
  income_taxes : ℕ
deriving DecidableEq, Repr

/-- Source `income_tax.rs` (`impl TaxRange`): `upper_limit - lower_limit` in `u32`
arithmetic (wrapping subtraction, as in release mode; equal to the plain
difference whenever `lower_limit ≤ upper_limit < 2^32`). -/
def TaxRange.range (t : TaxRange) : ℕ :=
  (((t.upper_limit : ℤ) - t.lower_limit) % 4294967296).toNat

namespace social_security

/-- Source `social_security.rs`: premium for one insurance from the yearly income,
the premium percentage and the monthly income cap. -/
def calculate_social_insurance (yearly_income : ℕ) (premium_percentage : ℚ)
    (max_monthly_value : ℚ) : ℚ :=
  min (yearly_income : ℚ) (max_monthly_value * 12) * premium_percentage

/-- Source `social_security.rs`: health-insurance premium rate by employment status. -/
def calculate_health_insurance_premium (health_insurance_config : HealthInsuranceConfig)
    (tax_data : TaxData) : ℚ :=
  if tax_data.self_employed then
    health_insurance_config.premium_general_reduced
      + health_insurance_config.premium_additional
      + health_insurance_config.premium_nursing
      + health_insurance_config.premium_nursing_additional
  else
    (health_insurance_config.premium_general
        + health_insurance_config.premium_additional
        + health_insurance_config.premium_nursing) / 2
      + health_insurance_config.premium_nursing_additional

/-- Source `social_security.rs`: retirement-insurance premium rate by employment status. -/
def calculate_retirement_insurance_premium
    (retirement_insurance_config : RetirementInsuranceConfig) (tax_data : TaxData) : ℚ :=
  if tax_data.self_employed then
    retirement_insurance_config.premium
  else
    retirement_insurance_config.premium / 2

/-- Source `social_security.rs` (`calculate`), the computed amount: minimum-income floor
for self-employed health insurance (`min_income * 12.0` cast `as u32`), the
three scheme amounts, summed and cast `as u32` once at the end.  The fixed
retirement override is a `u32` multiplication (`fixed_retirement * 12`),
hence reduced `% 2^32`. -/
def amount (health_insurance_config : HealthInsuranceConfig)
    (retirement_insurance_config : RetirementInsuranceConfig)
    (unemployment_insurance_config : UnemploymentInsuranceConfig)
    (tax_data : TaxData) : ℕ :=
  let income_for_health_insurance :=
    if tax_data.self_employed then
      max tax_data.income (toU32 (health_insurance_config.min_income * 12))
    else tax_data.income
  let health_insurance := calculate_social_insurance income_for_health_insurance
    (calculate_health_insurance_premium health_insurance_config tax_data)
    health_insurance_config.max_income
  let retirement_insurance : ℚ :=
    match tax_data.fixed_retirement with
    | some fixed_retirement => ((fixed_retirement * 12) % 4294967296 : ℕ)
    | none => calculate_social_insurance tax_data.income
        (calculate_retirement_insurance_premium retirement_insurance_config tax_data)
        retirement_insurance_config.max_income
  let unemployment_insurance : ℚ :=
    if tax_data.self_employed then 0
    else calculate_social_insurance tax_data.income
      (unemployment_insurance_config.premium / 2)
      unemployment_insurance_config.max_income
  toU32 (health_insurance + retirement_insurance + unemployment_insurance)

/-- Source `social_security.rs` (`calculate`): the source wraps the computed amount in
`Ok` on its single return path (line 50). -/
def calculate (health_insurance_config : HealthInsuranceConfig)
    (retirement_insurance_config : RetirementInsuranceConfig)
    (unemployment_insurance_config : UnemploymentInsuranceConfig)
    (tax_data : TaxData) : Except String ℕ :=
  .ok (amount health_insurance_config retirement_insurance_config
    unemployment_insurance_config tax_data)

end social_security

namespace income_tax

/-- Source `income_tax.rs` (`deduct_tax_for_one_range`): tax contribution of one range. -/
def deduct_tax_for_one_range (income : ℕ) (tax_range : TaxRange) : ℚ :=
  if income ≤ tax_range.lower_limit then 0
  else
    let taxed_income : ℕ := min (income - tax_range.lower_limit) tax_range.range
    let income_range : ℚ := (tax_range.range : ℚ)
    let taxed_income_q : ℚ := (taxed_income : ℚ)
    let rate_diff := tax_range.rate_max - tax_range.rate_min
    let effective_rate_diff := taxed_income_q / income_range * rate_diff
    let effective_rate := tax_range.rate_min + effective_rate_diff / 2
    taxed_income_q * effective_rate

/-- Source `income_tax.rs` (`calculate_income_tax`): fold of the per-range deductions;
for married couples the income is halved (`u32` division) before summation and
the cast sum is doubled (`u32` multiplication, wrapping). -/
def calculate_income_tax (config : IncomeTaxConfig) (income : ℕ) (together : Bool) : ℕ :=
  let income := if together then income / 2 else income
  let tax_sum := config.tax_ranges.foldl
    (fun tax_sum tax_range => tax_sum + deduct_tax_for_one_range income tax_range) 0
  if together then (toU32 tax_sum * 2) % 4294967296 else toU32 tax_sum

/-- Source `income_tax.rs` (`calculate_solidarity_addition`): the solidarity surtax on
a computed tax amount.  The doubled exemption level is a `u32` multiplication
(wrapping); the subtraction `tax - tax_exemption_level` is guarded by the
early return. -/
def calculate_solidarity_addition (tax : ℕ) (together : Bool)
    (solidarity_addition_config : SolidaryAdditionConfig) : ℕ :=
  let tax_exemption_level :=
    if together then (solidarity_addition_config.exemption_level * 2) % 4294967296
    else solidarity_addition_config.exemption_level
  if tax < tax_exemption_level then 0
  else
    let max_solidarity_addition : ℚ :=
      ((tax - tax_exemption_level : ℕ) : ℚ) * solidarity_addition_config.max_percentage
    let solidarity_addition : ℚ := (tax : ℚ) * solidarity_addition_config.rate
    toU32 (min solidarity_addition max_solidarity_addition)

/-- Source `income_tax.rs` (`calculate`): base income tax plus solidarity surtax
(`u32` addition, wrapping). -/
def calculate (config : IncomeTaxConfig) (taxable_income : ℕ) (together : Bool) : ℕ :=
  let tax := calculate_income_tax config taxable_income together
  let tax_solidarity :=
    calculate_solidarity_addition tax together config.solidary_addition_config
  (tax + tax_solidarity) % 4294967296

end income_tax

namespace config

/-- Source `config.rs` (`create 2025`): the 2025 configuration values. -/
def config2025 : Config where
  retirement_insurance := { premium := 0.186, max_income := 8050 }
  health_insurance :=
    { premium_general := 0.146
      premium_general_reduced := 0.14
      premium_additional := 0.0245
      premium_nursing := 0.036
      premium_nursing_additional := 0.006
      min_income := 1248.32
      max_income := 5512.5 }
  unemployment_insurance := { premium := 0.026, max_income := 8050 }
  income_tax :=
    { tax_ranges :=
        [ { lower_limit := 0, upper_limit := 12096, rate_min := 0, rate_max := 0 }
        , { lower_limit := 12096, upper_limit := 17444, rate_min := 0.14, rate_max := 0.2397 }
        , { lower_limit := 17444, upper_limit := 68480, rate_min := 0.2397, rate_max := 0.42 }
        , { lower_limit := 68480, upper_limit := 277825, rate_min := 0.42, rate_max := 0.42 }
        , { lower_limit := 277825, upper_limit := 4294967295, rate_min := 0.45, rate_max := 0.45 } ]
      solidary_addition_config :=
        { exemption_level := 19950, rate := 0.055, max_percentage := 0.119 } }

/-- Source `config.rs` (`create 2024`): the 2024 configuration values. -/
def config2024 : Config where
  retirement_insurance := { premium := 0.186, max_income := 7550 }
  health_insurance :=
    { premium_general := 0.146
      premium_general_reduced := 0.14
      premium_additional := 0.012
      premium_nursing := 0.034
      premium_nursing_additional := 0.006
      min_income := 1178.33
      max_income := 5175 }
  unemployment_insurance := { premium := 0.026, max_income := 7550 }
  income_tax :=
    { tax_ranges :=
        [ { lower_limit := 0, upper_limit := 11784, rate_min := 0, rate_max := 0 }
        , { lower_limit := 11784, upper_limit := 17005, rate_min := 0.14, rate_max := 0.2397 }
        , { lower_limit := 17005, upper_limit := 66760, rate_min := 0.2397, rate_max := 0.42 }
        , { lower_limit := 66760, upper_limit := 277825, rate_min := 0.42, rate_max := 0.42 }
        , { lower_limit := 277825, upper_limit := 4294967295, rate_min := 0.45, rate_max := 0.45 } ]
      solidary_addition_config :=
        { exemption_level := 18130, rate := 0.055, max_percentage := 0.119 } }

/-- Source `config.rs` (`create`): yearly configurations for 2024 and 2025, an error
for every other year. -/
def create (year : ℕ) : Except String Config :=
  match year with
  | 2025 => .ok config2025
  | 2024 => .ok config2024
  | _ => .error "No configuration available for given year."

end config

namespace net_income_germany

/-- Source `lib.rs` (`calculate`): the forward calculation.  The guard reproduces the
source condition `expenses < income && income - expenses > i32::MAX as u32`;
`deductions` is a `u32` addition (wrapping); the `i64` intermediate of the net
income cannot overflow and is narrowed to `i32` by `wrap32`. -/
def calculate (config : Config) (tax_data : TaxData) : Except String TaxResult :=
  if tax_data.expenses < tax_data.income
      ∧ tax_data.income - tax_data.expenses > 2147483647 then
    .error "Input values are too large to fit for the signed output."
  else
    match social_security.calculate config.health_insurance config.retirement_insurance
        config.unemployment_insurance tax_data with
    | .error e => .error e
    | .ok social_security =>
      let deductions := (social_security + tax_data.expenses) % 4294967296
      let taxable_income :=
        if deductions < tax_data.income then tax_data.income - deductions else 0
      let taxes := income_tax.calculate config.income_tax taxable_income tax_data.married
      .ok { gross_income := wrap32 (tax_data.income : ℤ)
            net_income := wrap32 ((tax_data.income : ℤ) - (tax_data.expenses : ℤ)
              - (social_security : ℤ) - (taxes : ℤ))
            social_security_taxes := social_security
            income_taxes := taxes }

/-- Source `lib.rs` (`calculate_reverse`), loop body with explicit fuel: one iteration
replaces the income by the `u32`-cast estimation, runs the forward calculation
(propagating its error), compares the computed net income with the target in
`i32` arithmetic, updates the estimation multiplicatively and loops unless the
difference is zero.  `none` means the loop is still running after the given
number of iterations. -/
def calculate_reverse_loop (config : Config) (tax_data : TaxData) :
    ℕ → ℚ → Option (Except String TaxResult)
  | 0, _ => none
  | fuel + 1, estimation =>
    let estimated_tax_data := { tax_data with income := toU32 estimation }
    match calculate config estimated_tax_data with
    | .error e => some (.error e)
    | .ok tax_result =>
      let estimation_difference : ℤ :=
        wrap32 (tax_result.net_income - wrap32 (tax_data.income : ℤ))
      let estimation' := estimation * (1 - (estimation_difference : ℚ) / estimation)
      if estimation_difference = 0 then some (.ok tax_result)
      else calculate_reverse_loop config tax_data fuel estimation'

/-- Source `lib.rs` (`calculate_reverse`): the reverse calculation, starting from the
estimation `tax_data.income as f32 * 1.5`, with explicit fuel for the
source's unbounded `loop`. -/
def calculate_reverse (config : Config) (tax_data : TaxData) (fuel : ℕ) :
    Option (Except String TaxResult) :=
  calculate_reverse_loop config tax_data fuel ((tax_data.income : ℚ) * 1.5)

end net_income_germany

/-- Specification-side definition, following the words of the spec for the
progressive tax: sum over all brackets of
`portion * (rate_min + (portion / bracket_width) * (rate_max - rate_min) / 2)`
with `portion = clamp(income - lower_limit, 0, upper_limit - lower_limit)`,
in exact arithmetic. -/
def income_tax_spec_sum (config : IncomeTaxConfig) (income : ℕ) : ℚ :=
  (config.tax_ranges.map (fun t =>
    let portion : ℚ :=
      min (max ((income : ℚ) - (t.lower_limit : ℚ)) 0)
        ((t.upper_limit : ℚ) - (t.lower_limit : ℚ))
    portion * (t.rate_min
      + portion / ((t.upper_limit : ℚ) - (t.lower_limit : ℚ)) * (t.rate_max - t.rate_min) / 2))).sum

/-- Specification-side definition, following the words of the spec for the
social-insurance total: each scheme is
`min(yearly_income, monthly_cap * 12) * applicable_rate` (health income
floored at `min_income * 12` for self-employed persons, at its exact
non-truncated value; fixed retirement override `fixed_monthly * 12`), summed,
truncated once at the very end. -/
def social_insurance_spec (health_insurance_config : HealthInsuranceConfig)
    (retirement_insurance_config : RetirementInsuranceConfig)
    (unemployment_insurance_config : UnemploymentInsuranceConfig)
    (tax_data : TaxData) : ℕ :=
  let yearly_income : ℚ :=
    if tax_data.self_employed then
      max (tax_data.income : ℚ) (health_insurance_config.min_income * 12)
    else (tax_data.income : ℚ)
  let health_rate : ℚ :=
    if tax_data.self_employed then
      health_insurance_config.premium_general_reduced
        + health_insurance_config.premium_additional
        + health_insurance_config.premium_nursing
        + health_insurance_config.premium_nursing_additional
    else
      (health_insurance_config.premium_general + health_insurance_config.premium_additional
          + health_insurance_config.premium_nursing) / 2
        + health_insurance_config.premium_nursing_additional
  let health := min yearly_income (health_insurance_config.max_income * 12) * health_rate
  let retirement : ℚ :=
    match tax_data.fixed_retirement with
    | some fixed_retirement => (fixed_retirement : ℚ) * 12
    | none => min (tax_data.income : ℚ) (retirement_insurance_config.max_income * 12)
        * (if tax_data.self_employed then retirement_insurance_config.premium
           else retirement_insurance_config.premium / 2)
  let unemployment : ℚ :=
    if tax_data.self_employed then 0
    else min (tax_data.income : ℚ) (unemployment_insurance_config.max_income * 12)
      * (unemployment_insurance_config.premium / 2)
  (⌊health + retirement + unemployment⌋).toNat

/-- Amended specification-side definition for the social-insurance total: as
`social_insurance_spec`, but the self-employed health-income floor is the
`u32`-truncated `min_income * 12` (as the code casts it), the fixed retirement
override wraps in `u32` multiplication, and the final truncation is the
saturating `u32` cast. -/
def social_insurance_spec_amended (health_insurance_config : HealthInsuranceConfig)
    (retirement_insurance_config : RetirementInsuranceConfig)
    (unemployment_insurance_config : UnemploymentInsuranceConfig)
    (tax_data : TaxData) : ℕ :=
  let yearly_income : ℚ :=
    if tax_data.self_employed then
      ((max tax_data.income (toU32 (health_insurance_config.min_income * 12)) : ℕ) : ℚ)
    else (tax_data.income : ℚ)
  let health_rate : ℚ :=
    if tax_data.self_employed then
      health_insurance_config.premium_general_reduced
        + health_insurance_config.premium_additional
        + health_insurance_config.premium_nursing
        + health_insurance_config.premium_nursing_additional
    else
      (health_insurance_config.premium_general + health_insurance_config.premium_additional
          + health_insurance_config.premium_nursing) / 2
        + health_insurance_config.premium_nursing_additional
  let health := min yearly_income (health_insurance_config.max_income * 12) * health_rate
  let retirement : ℚ :=
    match tax_data.fixed_retirement with
    | some fixed_retirement => ((fixed_retirement * 12) % 4294967296 : ℕ)
    | none => min (tax_data.income : ℚ) (retirement_insurance_config.max_income * 12)
        * (if tax_data.self_employed then retirement_insurance_config.premium
           else retirement_insurance_config.premium / 2)
  let unemployment : ℚ :=
    if tax_data.self_employed then 0
    else min (tax_data.income : ℚ) (unemployment_insurance_config.max_income * 12)
      * (unemployment_insurance_config.premium / 2)
  toU32 (health + retirement + unemployment)

/-- Well-formedness of one tax range, as documented in the configuration data
model: rates are fractions in `[0,1]` with `rate_min ≤ rate_max`, and the
limits are ordered `u32` values. -/
def range_ok (t : TaxRange) : Prop :=
  0 ≤ t.rate_min ∧ t.rate_min ≤ t.rate_max ∧ t.rate_max ≤ 1 ∧
    t.lower_limit ≤ t.upper_limit ∧ t.upper_limit ≤ 4294967295

/-- The bracket list is contiguous and ascending starting from the given lower
limit (each bracket starts where the previous one ends). -/
def ranges_chained : ℕ → List TaxRange → Prop
  | _, [] => True
  | a, t :: l => t.lower_limit = a ∧ ranges_chained t.upper_limit l

/-- Well-formedness of an income-tax configuration: well-formed, contiguous
brackets covering incomes from 0 up, and surtax fractions in `[0,1]`. -/
def valid_income_tax_config (config : IncomeTaxConfig) : Prop :=
  (∀ t ∈ config.tax_ranges, range_ok t) ∧ ranges_chained 0 config.tax_ranges ∧
    0 ≤ config.solidary_addition_config.rate ∧ config.solidary_addition_config.rate ≤ 1 ∧
    0 ≤ config.solidary_addition_config.max_percentage

/-- Evaluation helper: `Int.toNat` of a numeric literal. -/
theorem intToNat_lit (n : ℕ) : (no_index (OfNat.ofNat n) : ℤ).toNat = OfNat.ofNat n := rfl

theorem wrap32_lb (x : ℤ) : -2147483648 ≤ wrap32 x := by
  unfold wrap32; omega

theorem wrap32_ub (x : ℤ) : wrap32 x < 2147483648 := by
  unfold wrap32; omega

theorem wrap32_eq_self {x : ℤ} (h1 : -2147483648 ≤ x) (h2 : x < 2147483648) :
    wrap32 x = x := by
  unfold wrap32; omega

theorem wrap32_eq_zero_iff {x : ℤ} (h1 : -4294967296 < x) (h2 : x < 4294967296) :
    wrap32 x = 0 ↔ x = 0 := by
  unfold wrap32; omega

theorem wrap32_natCast_of_nonneg {n : ℕ} (h : (n : ℤ) < 4294967296)
    (hw : 0 ≤ wrap32 (n : ℤ)) : wrap32 (n : ℤ) = (n : ℤ) := by
  unfold wrap32 at *; omega

theorem toU32_lt (q : ℚ) : toU32 q < 4294967296 := by
  unfold toU32; omega

theorem toU32_mono {a b : ℚ} (h : a ≤ b) : toU32 a ≤ toU32 b := by
  unfold toU32
  have := Int.floor_le_floor (α := ℚ) h
  omega

theorem toU32_le_nat {q : ℚ} {n : ℕ} (h : q ≤ (n : ℚ)) : toU32 q ≤ n := by
  unfold toU32
  have h1 : ⌊q⌋ ≤ ⌊(n : ℚ)⌋ := Int.floor_le_floor h
  rw [Int.floor_natCast] at h1
  omega

theorem toU32_cast_le {q : ℚ} (h : 0 ≤ q) : (toU32 q : ℚ) ≤ q := by
  have hf : (0 : ℤ) ≤ ⌊q⌋ := Int.floor_nonneg.2 h
  have h1 : ((toU32 q : ℕ) : ℤ) ≤ ⌊q⌋ := by unfold toU32; omega
  have h2 : ((toU32 q : ℕ) : ℚ) ≤ ((⌊q⌋ : ℤ) : ℚ) := by exact_mod_cast h1
  exact le_trans h2 (Int.floor_le q)

theorem toU32_int_eq {q : ℚ} (h0 : 0 ≤ q) (h1 : q < 4294967296) :
    (toU32 q : ℤ) = ⌊q⌋ := by
  unfold toU32
  have hf0 : 0 ≤ ⌊q⌋ := Int.floor_nonneg.2 h0
  have hfu : ⌊q⌋ < 4294967296 := by
    have : (⌊q⌋ : ℚ) ≤ q := Int.floor_le q
    have : (⌊q⌋ : ℚ) < 4294967296 := lt_of_le_of_lt this h1
    exact_mod_cast this
  omega

theorem TaxRange.range_eq {t : TaxRange} (h : range_ok t) :
    t.range = t.upper_limit - t.lower_limit := by
  obtain ⟨-, -, -, h4, h5⟩ := h
  unfold TaxRange.range
  omega

theorem tax_foldl_eq_sum (income : ℕ) (l : List TaxRange) (s : ℚ) :
    l.foldl (fun tax_sum tax_range =>
      tax_sum + income_tax.deduct_tax_for_one_range income tax_range) s
      = s + (l.map (income_tax.deduct_tax_for_one_range income)).sum := by
  induction l generalizing s with
  | nil => simp
  | cons t l ih => simp [ih, add_assoc]

theorem deduct_nonneg {t : TaxRange} (h : range_ok t) (income : ℕ) :
    0 ≤ income_tax.deduct_tax_for_one_range income t := by
  obtain ⟨h1, h2, -, -, -⟩ := h
  unfold income_tax.deduct_tax_for_one_range
  split
  · exact le_rfl
  · dsimp only
    have hd : 0 ≤ t.rate_max - t.rate_min := by linarith
    have hdiv : (0 : ℚ) ≤ ((min (income - t.lower_limit) t.range : ℕ) : ℚ) / (t.range : ℚ)
        * (t.rate_max - t.rate_min) :=
      mul_nonneg (div_nonneg (Nat.cast_nonneg _) (Nat.cast_nonneg _)) hd
    apply mul_nonneg (Nat.cast_nonneg _)
    linarith

theorem deduct_le_portion {t : TaxRange} (h : range_ok t) (income : ℕ) :
    income_tax.deduct_tax_for_one_range income t
      ≤ max ((income : ℚ) - t.lower_limit) 0 - max ((income : ℚ) - t.upper_limit) 0 := by
  obtain ⟨h1, h2, h3, h4, h5⟩ := h
  have hlu : (t.lower_limit : ℚ) ≤ (t.upper_limit : ℚ) := by exact_mod_cast h4
  unfold income_tax.deduct_tax_for_one_range
  split
  · rename_i hle
    have hle' : (income : ℚ) ≤ t.lower_limit := by exact_mod_cast hle
    rw [max_eq_right (by linarith), max_eq_right (by linarith)]
    simp
  · rename_i hgt
    push_neg at hgt
    have hgt' : (t.lower_limit : ℚ) < (income : ℚ) := by exact_mod_cast hgt
    rw [TaxRange.range_eq ⟨h1, h2, h3, h4, h5⟩]
    set w : ℕ := t.upper_limit - t.lower_limit with hw
    set ti : ℕ := min (income - t.lower_limit) w with hti
    have htiw : ti ≤ w := min_le_right _ _
    have htiw' : (ti : ℚ) ≤ (w : ℚ) := by exact_mod_cast htiw
    have hti0 : (0 : ℚ) ≤ ti := Nat.cast_nonneg ti
    have hdiff : 0 ≤ t.rate_max - t.rate_min := by linarith
    have herate : t.rate_min + (ti : ℚ) / (w : ℚ) * (t.rate_max - t.rate_min) / 2 ≤ 1 := by
      rcases Nat.eq_zero_or_pos w with hw0 | hwpos
      · rw [hw0]; push_cast; rw [div_zero, zero_mul, zero_div, add_zero]; linarith
      · have hwq : (0 : ℚ) < w := by exact_mod_cast hwpos
        have : (ti : ℚ) / w ≤ 1 := by rw [div_le_one hwq]; exact htiw'
        have h6 : (ti : ℚ) / w * (t.rate_max - t.rate_min) ≤ 1 * (t.rate_max - t.rate_min) :=
          mul_le_mul_of_nonneg_right this hdiff
        nlinarith
    have hmain : (ti : ℚ) * (t.rate_min + (ti : ℚ) / (w : ℚ) * (t.rate_max - t.rate_min) / 2)
        ≤ (ti : ℚ) := by
      calc (ti : ℚ) * (t.rate_min + (ti : ℚ) / (w : ℚ) * (t.rate_max - t.rate_min) / 2)
          ≤ (ti : ℚ) * 1 := by
            apply mul_le_mul_of_nonneg_left herate hti0
        _ = (ti : ℚ) := mul_one _
    refine le_trans hmain ?_
    have hcast : (ti : ℚ) = min ((income : ℚ) - t.lower_limit) ((w : ℚ)) := by
      rw [hti]
      push_cast [Nat.cast_min]
      rw [Nat.cast_sub (by omega)]
    rw [hcast]
    rw [max_eq_left (by linarith)]
    have hwq : (w : ℚ) = (t.upper_limit : ℚ) - t.lower_limit := by
      rw [hw]; rw [Nat.cast_sub h4]
    rcases le_total ((income : ℚ)) ((t.upper_limit : ℚ)) with hiu | hiu
    · rw [max_eq_right (by linarith)]
      simp only [sub_zero]
      exact min_le_left _ _
    · rw [max_eq_left (by linarith)]
      rw [hwq]
      have : min ((income : ℚ) - t.lower_limit) ((t.upper_limit : ℚ) - t.lower_limit)
          ≤ (t.upper_limit : ℚ) - t.lower_limit := min_le_right _ _
      linarith

theorem sum_le_chained (income : ℕ) :
    ∀ (a : ℕ) (l : List TaxRange), ranges_chained a l → (∀ t ∈ l, range_ok t) →
      ((l.map (income_tax.deduct_tax_for_one_range income)).sum)
        ≤ max ((income : ℚ) - a) 0 := by
  intro a l
  induction l generalizing a with
  | nil => intro _ _; simp [le_max_iff]
  | cons t l ih =>
    intro hc hok
    obtain ⟨hla, hcl⟩ := hc
    have hokt : range_ok t := hok t (by simp)
    have hokl : ∀ u ∈ l, range_ok u := fun u hu => hok u (by simp [hu])
    have h1 := deduct_le_portion hokt income
    have h2 := ih t.upper_limit hcl hokl
    simp only [List.map_cons, List.sum_cons]
    rw [hla] at h1
    linarith

theorem sum_deduct_nonneg (income : ℕ) (l : List TaxRange) (hok : ∀ t ∈ l, range_ok t) :
    0 ≤ (l.map (income_tax.deduct_tax_for_one_range income)).sum := by
  apply List.sum_nonneg
  intro q hq
  obtain ⟨t, ht, rfl⟩ := List.mem_map.1 hq
  exact deduct_nonneg (hok t ht) income

theorem deduct_mono {t : TaxRange} (h : range_ok t) {i j : ℕ} (hij : i ≤ j) :
    income_tax.deduct_tax_for_one_range i t ≤ income_tax.deduct_tax_for_one_range j t := by
  obtain ⟨h1, h2, h3, h4, h5⟩ := h
  rcases le_or_lt i t.lower_limit with hi | hi
  · have hz : income_tax.deduct_tax_for_one_range i t = 0 := by
      unfold income_tax.deduct_tax_for_one_range; rw [if_pos hi]
    rw [hz]
    exact deduct_nonneg ⟨h1, h2, h3, h4, h5⟩ j
  · have hjl : t.lower_limit < j := lt_of_lt_of_le hi hij
    unfold income_tax.deduct_tax_for_one_range
    rw [if_neg (not_le.2 hi), if_neg (not_le.2 hjl)]
    dsimp only
    have hmn : min (i - t.lower_limit) t.range ≤ min (j - t.lower_limit) t.range :=
      min_le_min (Nat.sub_le_sub_right hij _) le_rfl
    have htij : ((min (i - t.lower_limit) t.range : ℕ) : ℚ)
        ≤ ((min (j - t.lower_limit) t.range : ℕ) : ℚ) := by exact_mod_cast hmn
    have hd : 0 ≤ t.rate_max - t.rate_min := by linarith
    have hdivle : ((min (i - t.lower_limit) t.range : ℕ) : ℚ) / (t.range : ℚ)
        ≤ ((min (j - t.lower_limit) t.range : ℕ) : ℚ) / (t.range : ℚ) := by
      rcases eq_or_lt_of_le (Nat.cast_nonneg (α := ℚ) t.range) with hw | hw
      · rw [← hw, div_zero, div_zero]
      · exact (div_le_div_iff_of_pos_right hw).2 htij
    have her : t.rate_min + ((min (i - t.lower_limit) t.range : ℕ) : ℚ) / (t.range : ℚ)
          * (t.rate_max - t.rate_min) / 2
        ≤ t.rate_min + ((min (j - t.lower_limit) t.range : ℕ) : ℚ) / (t.range : ℚ)
          * (t.rate_max - t.rate_min) / 2 := by
      have := mul_le_mul_of_nonneg_right hdivle hd
      linarith
    have her0 : 0 ≤ t.rate_min + ((min (i - t.lower_limit) t.range : ℕ) : ℚ) / (t.range : ℚ)
        * (t.rate_max - t.rate_min) / 2 := by
      have : (0 : ℚ) ≤ ((min (i - t.lower_limit) t.range : ℕ) : ℚ) / (t.range : ℚ)
          * (t.rate_max - t.rate_min) :=
        mul_nonneg (div_nonneg (Nat.cast_nonneg _) (Nat.cast_nonneg _)) hd
      linarith
    exact mul_le_mul htij her her0 (Nat.cast_nonneg _)

theorem sum_deduct_mono {l : List TaxRange} (hok : ∀ t ∈ l, range_ok t) {i j : ℕ}
    (hij : i ≤ j) :
    (l.map (income_tax.deduct_tax_for_one_range i)).sum
      ≤ (l.map (income_tax.deduct_tax_for_one_range j)).sum := by
  induction l with
  | nil => simp
  | cons t l ih =>
    simp only [List.map_cons, List.sum_cons]
    have h1 := deduct_mono (hok t (by simp)) hij
    have h2 := ih (fun u hu => hok u (by simp [hu]))
    linarith

/-- Lemma: `calculate_income_tax` for a single filer, rewritten through `List.sum`. -/
theorem calculate_income_tax_false_eq (config : IncomeTaxConfig) (income : ℕ) :
    income_tax.calculate_income_tax config income false =
      toU32 ((config.tax_ranges.map (income_tax.deduct_tax_for_one_range income)).sum) := by
  unfold income_tax.calculate_income_tax
  simp [tax_foldl_eq_sum]

/-- Lemma: `calculate_income_tax` with income splitting, rewritten through `List.sum`. -/
theorem calculate_income_tax_true_eq (config : IncomeTaxConfig) (income : ℕ) :
    income_tax.calculate_income_tax config income true =
      (toU32 ((config.tax_ranges.map
        (income_tax.deduct_tax_for_one_range (income / 2))).sum) * 2) % 4294967296 := by
  unfold income_tax.calculate_income_tax
  simp [tax_foldl_eq_sum]

theorem calculate_income_tax_le {config : IncomeTaxConfig}
    (hv : valid_income_tax_config config) (income : ℕ) (together : Bool)
    (hi : income < 4294967296) :
    income_tax.calculate_income_tax config income together ≤ income := by
  obtain ⟨hok, hch, -, -, -⟩ := hv
  cases together with
  | false =>
    rw [calculate_income_tax_false_eq]
    apply toU32_le_nat
    have := sum_le_chained income 0 config.tax_ranges hch hok
    simpa using this
  | true =>
    rw [calculate_income_tax_true_eq]
    have hs : (config.tax_ranges.map
        (income_tax.deduct_tax_for_one_range (income / 2))).sum ≤ ((income / 2 : ℕ) : ℚ) := by
      have := sum_le_chained (income / 2) 0 config.tax_ranges hch hok
      simpa using this
    have h1 : toU32 ((config.tax_ranges.map
        (income_tax.deduct_tax_for_one_range (income / 2))).sum) ≤ income / 2 :=
      toU32_le_nat hs
    have h2 : toU32 ((config.tax_ranges.map
        (income_tax.deduct_tax_for_one_range (income / 2))).sum) * 2 < 4294967296 := by omega
    rw [Nat.mod_eq_of_lt h2]
    omega

theorem calculate_income_tax_mono {config : IncomeTaxConfig}
    (hv : valid_income_tax_config config) {i j : ℕ} (together : Bool) (hij : i ≤ j)
    (hj : j < 4294967296) :
    income_tax.calculate_income_tax config i together
      ≤ income_tax.calculate_income_tax config j together := by
  obtain ⟨hok, hch, -, -, -⟩ := hv
  cases together with
  | false =>
    rw [calculate_income_tax_false_eq, calculate_income_tax_false_eq]
    exact toU32_mono (sum_deduct_mono hok hij)
  | true =>
    rw [calculate_income_tax_true_eq, calculate_income_tax_true_eq]
    have hsi : (config.tax_ranges.map
        (income_tax.deduct_tax_for_one_range (i / 2))).sum ≤ ((i / 2 : ℕ) : ℚ) := by
      have := sum_le_chained (i / 2) 0 config.tax_ranges hch hok
      simpa using this
    have hsj : (config.tax_ranges.map
        (income_tax.deduct_tax_for_one_range (j / 2))).sum ≤ ((j / 2 : ℕ) : ℚ) := by
      have := sum_le_chained (j / 2) 0 config.tax_ranges hch hok
      simpa using this
    have h1 : toU32 ((config.tax_ranges.map
        (income_tax.deduct_tax_for_one_range (i / 2))).sum) ≤ i / 2 := toU32_le_nat hsi
    have h2 : toU32 ((config.tax_ranges.map
        (income_tax.deduct_tax_for_one_range (j / 2))).sum) ≤ j / 2 := toU32_le_nat hsj
    have hm : toU32 ((config.tax_ranges.map
        (income_tax.deduct_tax_for_one_range (i / 2))).sum)
        ≤ toU32 ((config.tax_ranges.map
          (income_tax.deduct_tax_for_one_range (j / 2))).sum) :=
      toU32_mono (sum_deduct_mono hok (Nat.div_le_div_right hij))
    rw [Nat.mod_eq_of_lt (by omega), Nat.mod_eq_of_lt (by omega)]
    omega

theorem soli_mono (s : SolidaryAdditionConfig) (hr : 0 ≤ s.rate)
    (hm : 0 ≤ s.max_percentage) (together : Bool) {t1 t2 : ℕ} (h : t1 ≤ t2) :
    income_tax.calculate_solidarity_addition t1 together s
      ≤ income_tax.calculate_solidarity_addition t2 together s := by
  unfold income_tax.calculate_solidarity_addition
  dsimp only
  set E := if together then (s.exemption_level * 2) % 4294967296 else s.exemption_level with hE
  rcases lt_or_le t1 E with h1 | h1
  · rw [if_pos h1]
    exact Nat.zero_le _
  · rw [if_neg (not_lt.2 h1), if_neg (not_lt.2 (le_trans h1 h))]
    apply toU32_mono
    apply min_le_min
    · exact mul_le_mul_of_nonneg_right (by exact_mod_cast h) hr
    · apply mul_le_mul_of_nonneg_right _ hm
      have : t1 - E ≤ t2 - E := Nat.sub_le_sub_right h E
      exact_mod_cast this

theorem soli_le (s : SolidaryAdditionConfig) (hr1 : s.rate ≤ 1) (together : Bool)
    (t : ℕ) : income_tax.calculate_solidarity_addition t together s ≤ t := by
  unfold income_tax.calculate_solidarity_addition
  dsimp only
  set E := if together then (s.exemption_level * 2) % 4294967296 else s.exemption_level with hE
  rcases lt_or_le t E with h1 | h1
  · rw [if_pos h1]
    exact Nat.zero_le _
  · rw [if_neg (not_lt.2 h1)]
    apply toU32_le_nat
    refine le_trans (min_le_left _ _) ?_
    exact mul_le_of_le_one_right (Nat.cast_nonneg _) hr1

theorem deduct_eq_spec_term {t : TaxRange} (h : range_ok t) (income : ℕ) :
    income_tax.deduct_tax_for_one_range income t =
      (min (max ((income : ℚ) - (t.lower_limit : ℚ)) 0)
          ((t.upper_limit : ℚ) - (t.lower_limit : ℚ)))
        * (t.rate_min
          + (min (max ((income : ℚ) - (t.lower_limit : ℚ)) 0)
                ((t.upper_limit : ℚ) - (t.lower_limit : ℚ)))
            / ((t.upper_limit : ℚ) - (t.lower_limit : ℚ)) * (t.rate_max - t.rate_min) / 2) := by
  obtain ⟨h1, h2, h3, h4, h5⟩ := h
  have hlu : (t.lower_limit : ℚ) ≤ (t.upper_limit : ℚ) := by exact_mod_cast h4
  unfold income_tax.deduct_tax_for_one_range
  split
  · rename_i hle
    have hle' : (income : ℚ) ≤ t.lower_limit := by exact_mod_cast hle
    rw [max_eq_right (by linarith), min_eq_left (by linarith), zero_mul]
  · rename_i hgt
    push_neg at hgt
    have hgt' : (t.lower_limit : ℚ) < (income : ℚ) := by exact_mod_cast hgt
    dsimp only
    rw [TaxRange.range_eq ⟨h1, h2, h3, h4, h5⟩]
    have hcast : ((min (income - t.lower_limit) (t.upper_limit - t.lower_limit) : ℕ) : ℚ)
        = min (max ((income : ℚ) - (t.lower_limit : ℚ)) 0)
            ((t.upper_limit : ℚ) - (t.lower_limit : ℚ)) := by
      rw [max_eq_left (by linarith)]
      push_cast [Nat.cast_min]
      rw [Nat.cast_sub (by omega), Nat.cast_sub h4]
    have hwq : ((t.upper_limit - t.lower_limit : ℕ) : ℚ)
        = (t.upper_limit : ℚ) - (t.lower_limit : ℚ) := Nat.cast_sub h4
    rw [hcast, hwq]

theorem income_tax_calculate_mono {config : IncomeTaxConfig}
    (hv : valid_income_tax_config config) {i j : ℕ} (together : Bool) (hij : i ≤ j)
    (hj : j < 2147483648) :
    income_tax.calculate config i together ≤ income_tax.calculate config j together := by
  obtain ⟨hok, hch, hr0, hr1, hm0⟩ := hv
  unfold income_tax.calculate
  dsimp only
  have hTj : income_tax.calculate_income_tax config j together ≤ j :=
    calculate_income_tax_le ⟨hok, hch, hr0, hr1, hm0⟩ j together (by omega)
  have hTi : income_tax.calculate_income_tax config i together ≤ i :=
    calculate_income_tax_le ⟨hok, hch, hr0, hr1, hm0⟩ i together (by omega)
  have hT : income_tax.calculate_income_tax config i together
      ≤ income_tax.calculate_income_tax config j together :=
    calculate_income_tax_mono ⟨hok, hch, hr0, hr1, hm0⟩ together hij (by omega)
  have hsi := soli_le config.solidary_addition_config hr1 together
    (income_tax.calculate_income_tax config i together)
  have hsj := soli_le config.solidary_addition_config hr1 together
    (income_tax.calculate_income_tax config j together)
  have hsm := soli_mono config.solidary_addition_config hr0 hm0 together hT
  rw [Nat.mod_eq_of_lt (by omega), Nat.mod_eq_of_lt (by omega)]
  omega

theorem calculate_ok_fields {cfg : Config} {td : TaxData} {r : TaxResult}
    (h : net_income_germany.calculate cfg td = .ok r) :
    r.gross_income = wrap32 (td.income : ℤ) ∧
      r.net_income = wrap32 ((td.income : ℤ) - (td.expenses : ℤ)
        - (r.social_security_taxes : ℤ) - (r.income_taxes : ℤ)) := by
  unfold net_income_germany.calculate at h
  split at h
  · exact absurd h (by simp)
  · simp only [social_security.calculate] at h
    injection h with h
    subst h
    exact ⟨rfl, rfl⟩

theorem calculate_isOk_of (cfg : Config) (td : TaxData)
    (h : ¬(td.expenses < td.income ∧ td.income - td.expenses > 2147483647)) :
    (net_income_germany.calculate cfg td).isOk = true := by
  unfold net_income_germany.calculate
  rw [if_neg h]
  simp [social_security.calculate, Except.isOk, Except.toBool]

/-- One `Ok` evaluation of the forward calculation, staged through hypothesis
equations for the social-security amount, the taxable income and the income
tax, so that concrete runs can be evaluated piecewise. -/
theorem calculate_ok_eq (cfg : Config) (td : TaxData)
    (h : ¬(td.expenses < td.income ∧ td.income - td.expenses > 2147483647))
    {ss : ℕ} (hss : social_security.amount cfg.health_insurance cfg.retirement_insurance
      cfg.unemployment_insurance td = ss)
    {ti : ℕ} (hti : (if (ss + td.expenses) % 4294967296 < td.income
      then td.income - (ss + td.expenses) % 4294967296 else 0) = ti)
    {tx : ℕ} (htx : income_tax.calculate cfg.income_tax ti td.married = tx) :
    net_income_germany.calculate cfg td =
      .ok ⟨wrap32 (td.income : ℤ),
        wrap32 ((td.income : ℤ) - (td.expenses : ℤ) - (ss : ℤ) - (tx : ℤ)), ss, tx⟩ := by
  subst hss
  subst hti
  subst htx
  unfold net_income_germany.calculate
  rw [if_neg h]
  rfl

theorem ev_tax2025_zero : income_tax.calculate config.config2025.income_tax 0 false = 0 := by
  simp only [income_tax.calculate, income_tax.calculate_income_tax,
    income_tax.calculate_solidarity_addition, config.config2025, List.foldl,
    income_tax.deduct_tax_for_one_range, TaxRange.range, toU32]
  norm_num [intToNat_lit]

theorem ev_ss_zero_income : social_security.amount config.config2025.health_insurance
    config.config2025.retirement_insurance config.config2025.unemployment_insurance
    ⟨0, 1, none, false, false⟩ = 0 := by
  simp only [social_security.amount,
    social_security.calculate_social_insurance, social_security.calculate_health_insurance_premium,
    social_security.calculate_retirement_insurance_premium, config.config2025, toU32]
  norm_num [intToNat_lit]

theorem ev_c1_forward : net_income_germany.calculate config.config2025
    ⟨0, 1, none, false, false⟩ = .ok ⟨0, -1, 0, 0⟩ := by
  have h := calculate_ok_eq config.config2025 ⟨0, 1, none, false, false⟩
    (by simp) ev_ss_zero_income (by norm_num) ev_tax2025_zero
  rw [h]
  norm_num [wrap32]

theorem ev_c2_ss : social_security.amount config.config2025.health_insurance
    config.config2025.retirement_insurance config.config2025.unemployment_insurance
    ⟨0, 4294967295, none, false, false⟩ = 0 := by
  simp only [social_security.amount,
    social_security.calculate_social_insurance, social_security.calculate_health_insurance_premium,
    social_security.calculate_retirement_insurance_premium, config.config2025, toU32]
  norm_num [intToNat_lit]

theorem ev_c2_forward : net_income_germany.calculate config.config2025
    ⟨0, 4294967295, none, false, false⟩ = .ok ⟨0, 1, 0, 0⟩ := by
  have h := calculate_ok_eq config.config2025 ⟨0, 4294967295, none, false, false⟩
    (by simp) ev_c2_ss (by norm_num) ev_tax2025_zero
  rw [h]
  norm_num [wrap32]

theorem ev_c3_ss : social_security.amount config.config2025.health_insurance
    config.config2025.retirement_insurance config.config2025.unemployment_insurance
    ⟨30000, 4294967295, none, false, false⟩ = 6457 := by
  simp only [social_security.amount,
    social_security.calculate_social_insurance, social_security.calculate_health_insurance_premium,
    social_security.calculate_retirement_insurance_premium, config.config2025, toU32]
  norm_num [intToNat_lit]

theorem ev_c3_tax : income_tax.calculate config.config2025.income_tax 23544 false = 2543 := by
  simp only [income_tax.calculate, income_tax.calculate_income_tax,
    income_tax.calculate_solidarity_addition, config.config2025, List.foldl,
    income_tax.deduct_tax_for_one_range, TaxRange.range, toU32]
  norm_num [intToNat_lit]

theorem ev_c3_forward : net_income_germany.calculate config.config2025
    ⟨30000, 4294967295, none, false, false⟩ = .ok ⟨30000, 21001, 6457, 2543⟩ := by
  have h := calculate_ok_eq config.config2025 ⟨30000, 4294967295, none, false, false⟩
    (by simp) ev_c3_ss (by norm_num) ev_c3_tax
  rw [h]
  norm_num [wrap32]

theorem ev_c3w_ss : social_security.amount config.config2025.health_insurance
    config.config2025.retirement_insurance config.config2025.unemployment_insurance
    ⟨0, 0, none, false, false⟩ = 0 := by
  simp only [social_security.amount,
    social_security.calculate_social_insurance, social_security.calculate_health_insurance_premium,
    social_security.calculate_retirement_insurance_premium, config.config2025, toU32]
  norm_num [intToNat_lit]

theorem ev_c3w_forward : net_income_germany.calculate config.config2025
    ⟨0, 0, none, false, false⟩ = .ok ⟨0, 0, 0, 0⟩ := by
  have h := calculate_ok_eq config.config2025 ⟨0, 0, none, false, false⟩
    (by simp) ev_c3w_ss (by norm_num) ev_tax2025_zero
  rw [h]
  norm_num [wrap32]

theorem ev_c9_ss_90300 : social_security.amount config.config2025.health_insurance
    config.config2025.retirement_insurance config.config2025.unemployment_insurance
    ⟨90300, 0, none, false, false⟩ = 16798 := by
  simp only [social_security.amount,
    social_security.calculate_social_insurance, social_security.calculate_health_insurance_premium,
    social_security.calculate_retirement_insurance_premium, config.config2025, toU32]
  norm_num [intToNat_lit]

theorem ev_c9_ss_90301 : social_security.amount config.config2025.health_insurance
    config.config2025.retirement_insurance config.config2025.unemployment_insurance
    ⟨90301, 0, none, false, false⟩ = 16798 := by
  simp only [social_security.amount,
    social_security.calculate_social_insurance, social_security.calculate_health_insurance_premium,
    social_security.calculate_retirement_insurance_premium, config.config2025, toU32]
  norm_num [intToNat_lit]

theorem ev_c9_tax_73502 : income_tax.calculate config.config2025.income_tax 73502 false
    = 19958 := by
  simp only [income_tax.calculate, income_tax.calculate_income_tax,
    income_tax.calculate_solidarity_addition, config.config2025, List.foldl,
    income_tax.deduct_tax_for_one_range, TaxRange.range, toU32]
  norm_num [intToNat_lit]

theorem ev_c9_tax_73503 : income_tax.calculate config.config2025.income_tax 73503 false
    = 19960 := by
  simp only [income_tax.calculate, income_tax.calculate_income_tax,
    income_tax.calculate_solidarity_addition, config.config2025, List.foldl,
    income_tax.deduct_tax_for_one_range, TaxRange.range, toU32]
  norm_num [intToNat_lit]

theorem ev_c9_forward_90300 : net_income_germany.calculate config.config2025
    ⟨90300, 0, none, false, false⟩ = .ok ⟨90300, 53544, 16798, 19958⟩ := by
  have h := calculate_ok_eq config.config2025 ⟨90300, 0, none, false, false⟩
    (by simp) ev_c9_ss_90300 (by norm_num) ev_c9_tax_73502
  rw [h]
  norm_num [wrap32]

theorem ev_c9_forward_90301 : net_income_germany.calculate config.config2025
    ⟨90301, 0, none, false, false⟩ = .ok ⟨90301, 53543, 16798, 19960⟩ := by
  have h := calculate_ok_eq config.config2025 ⟨90301, 0, none, false, false⟩
    (by simp) ev_c9_ss_90301 (by norm_num) ev_c9_tax_73503
  rw [h]
  norm_num [wrap32]

theorem ev_c7_married : income_tax.calculate config.config2024.income_tax 140008 true
    = 37681 := by
  simp only [income_tax.calculate, income_tax.calculate_income_tax,
    income_tax.calculate_solidarity_addition, config.config2024, List.foldl,
    income_tax.deduct_tax_for_one_range, TaxRange.range, toU32]
  norm_num [intToNat_lit]

theorem ev_c7_single : income_tax.calculate config.config2024.income_tax 70004 false
    = 18840 := by
  simp only [income_tax.calculate, income_tax.calculate_income_tax,
    income_tax.calculate_solidarity_addition, config.config2024, List.foldl,
    income_tax.deduct_tax_for_one_range, TaxRange.range, toU32]
  norm_num [intToNat_lit]

theorem ev_base_tax2025_zero : income_tax.calculate_income_tax config.config2025.income_tax 0
    false = 0 := by
  simp only [income_tax.calculate_income_tax, config.config2025, List.foldl,
    income_tax.deduct_tax_for_one_range, TaxRange.range, toU32]
  norm_num [intToNat_lit]

/-- With target net income 0 and expenses 1 (2025 configuration, employed,
single), the first estimation is 0; the forward run returns net income -1, the
multiplicative update divides by the zero estimation and leaves it at 0, so
every iteration repeats the same state and the loop never returns. -/
theorem c1_loop_stuck : ∀ n, net_income_germany.calculate_reverse_loop config.config2025
    ⟨0, 1, none, false, false⟩ n 0 = none := by
  intro n
  induction n with
  | zero => rfl
  | succ n ih =>
    simp only [net_income_germany.calculate_reverse_loop]
    norm_num [toU32]
    rw [ev_c1_forward]
    norm_num [wrap32]
    simpa using ih

/-- C1, counterexample: the claimed iteration cap "of a few hundred" does not
exist.  On the concrete input with target net income 0 and expenses 1, the
reverse solver is still looping after 400 iterations, with no error of any
kind (in particular no non-convergence error): the source's `loop` has no cap
at all. -/
theorem c1_counterexample : net_income_germany.calculate_reverse config.config2025
    ⟨0, 1, none, false, false⟩ 400 = none := by
  have h := c1_loop_stuck 400
  unfold net_income_germany.calculate_reverse
  simpa using h

/-- C1 (amended): `calculate_reverse` has no iteration cap and no
non-convergence error: it loops until the computed net income equals the
target exactly, only propagating errors of the forward calculation, and on
some inputs (target net income 0 with expenses 1, 2025 configuration) it
exhausts every iteration bound without returning. -/
theorem c1_amended_no_iteration_cap :
    ∀ fuel, net_income_germany.calculate_reverse config.config2025
      ⟨0, 1, none, false, false⟩ fuel = none := by
  intro fuel
  have h := c1_loop_stuck fuel
  unfold net_income_germany.calculate_reverse
  simpa using h

/-- C2, counterexample: with income 0 and expenses `u32::MAX`, the mathematical
difference `gross_income - expenses = -4294967295` lies far below `i32::MIN`,
yet the forward calculation succeeds (the net income even wraps to +1): the
magnitude check only detects the positive direction. -/
theorem c2_counterexample :
    net_income_germany.calculate config.config2025 ⟨0, 4294967295, none, false, false⟩
        = .ok ⟨0, 1, 0, 0⟩
      ∧ ((0 : ℤ) - 4294967295 < -2147483648) := by
  exact ⟨ev_c2_forward, by norm_num⟩

/-- C2 (amended): the forward calculation fails with the "input too large"
error exactly when `expenses < income` and `income - expenses > i32::MAX`
(only the positive overflow is detected; a difference below `i32::MIN` is not
flagged and wraps on narrowing), and on every other input it returns `Ok` —
so no partial result is ever produced on the error path. -/
theorem c2_amended_overflow_guard :
    ∀ (cfg : Config) (td : TaxData),
      (net_income_germany.calculate cfg td
          = .error "Input values are too large to fit for the signed output."
        ↔ td.expenses < td.income ∧ 2147483647 < td.income - td.expenses)
      ∧ ((net_income_germany.calculate cfg td).isOk = true
        ↔ ¬(td.expenses < td.income ∧ 2147483647 < td.income - td.expenses)) := by
  intro cfg td
  constructor
  · constructor
    · intro h
      by_contra hn
      have hok := calculate_isOk_of cfg td hn
      rw [h] at hok
      simp [Except.isOk, Except.toBool] at hok
    · intro hg
      unfold net_income_germany.calculate
      rw [if_pos hg]
  · constructor
    · intro h hg
      unfold net_income_germany.calculate at h
      rw [if_pos hg] at h
      simp [Except.isOk, Except.toBool] at h
    · exact calculate_isOk_of cfg td

/-- C5, counterexample: with a crafted configuration (self-employed minimum
monthly income 0.125, reduced health rate 1, retirement rate 0.6) and yearly
income 1, the claim formula floors the health income at the exact value
`min_income * 12 = 1.5` and yields total 2, while the code truncates the floor
to the whole unit 1 (`min_income * 12.0` is cast `as u32`) and yields 1. -/
theorem c5_counterexample :
    social_insurance_spec ⟨0, 1, 0, 0, 0, 0.125, 1000⟩ ⟨0.6, 1000⟩ ⟨0, 1000⟩
        ⟨1, 0, none, true, false⟩
      ≠ social_security.amount ⟨0, 1, 0, 0, 0, 0.125, 1000⟩ ⟨0.6, 1000⟩ ⟨0, 1000⟩
        ⟨1, 0, none, true, false⟩ := by
  have h1 : social_insurance_spec ⟨0, 1, 0, 0, 0, 0.125, 1000⟩ ⟨0.6, 1000⟩ ⟨0, 1000⟩
      ⟨1, 0, none, true, false⟩ = 2 := by
    simp only [social_insurance_spec]
    norm_num [min_def, max_def, intToNat_lit]
  have h2 : social_security.amount ⟨0, 1, 0, 0, 0, 0.125, 1000⟩ ⟨0.6, 1000⟩ ⟨0, 1000⟩
      ⟨1, 0, none, true, false⟩ = 1 := by
    simp only [social_security.amount, social_security.calculate_social_insurance,
      social_security.calculate_health_insurance_premium,
      social_security.calculate_retirement_insurance_premium, toU32]
    norm_num [intToNat_lit]
  rw [h1, h2]
  decide

/-- C5 (amended): the social-insurance total is the saturating `u32` cast,
applied once at the very end, of the sum of the three scheme amounts
`min(yearly_income, monthly_cap * 12) * applicable_rate`, where the
self-employed health income is floored at the `u32`-truncated
`min_income * 12`, the fixed retirement override is `fixed_monthly * 12`
reduced mod `2^32`, rates are as the claim states them, and the self-employed
unemployment premium is 0. -/
theorem c5_amended_social_insurance :
    ∀ (h : HealthInsuranceConfig) (r : RetirementInsuranceConfig)
      (u : UnemploymentInsuranceConfig) (td : TaxData),
      social_insurance_spec_amended h r u td = social_security.amount h r u td := by
  intro h r u td
  obtain ⟨i, e, fr, se, m⟩ := td
  unfold social_insurance_spec_amended social_security.amount
    social_security.calculate_social_insurance
    social_security.calculate_health_insurance_premium
    social_security.calculate_retirement_insurance_premium
  cases se <;> cases fr <;> rfl

/-- C6: the solidarity surtax is 0 below the (doubled when married) exemption
level; it never exceeds `(tax - exemption) * max_percentage`; and at or above
the exemption level it is the truncation of the smaller of `tax * rate` and
that cap. -/
theorem c6_surtax_characterization :
    ∀ (tax : ℕ) (together : Bool) (s : SolidaryAdditionConfig) (effE : ℕ),
      0 ≤ s.rate → 0 ≤ s.max_percentage → s.exemption_level * 2 < 4294967296 →
      effE = (if together then s.exemption_level * 2 else s.exemption_level) →
      (tax < effE → income_tax.calculate_solidarity_addition tax together s = 0)
      ∧ ((income_tax.calculate_solidarity_addition tax together s : ℚ)
          ≤ ((tax - effE : ℕ) : ℚ) * s.max_percentage)
      ∧ (effE ≤ tax → income_tax.calculate_solidarity_addition tax together s
          = toU32 (min ((tax : ℚ) * s.rate) (((tax - effE : ℕ) : ℚ) * s.max_percentage))) := by
  intro tax together s effE hr hm hE heff
  have hmod : (s.exemption_level * 2) % 4294967296 = s.exemption_level * 2 :=
    Nat.mod_eq_of_lt hE
  have hcode : income_tax.calculate_solidarity_addition tax together s
      = if tax < effE then 0
        else toU32 (min ((tax : ℚ) * s.rate) (((tax - effE : ℕ) : ℚ) * s.max_percentage)) := by
    unfold income_tax.calculate_solidarity_addition
    dsimp only
    rw [hmod, ← heff]
  rcases lt_or_le tax effE with h | h
  · rw [hcode, if_pos h]
    refine ⟨fun _ => rfl, ?_, fun hc => absurd hc (by omega)⟩
    rw [Nat.sub_eq_zero_of_le h.le]
    norm_num
  · rw [hcode, if_neg (not_lt.2 h)]
    refine ⟨fun hc => absurd hc (by omega), ?_, fun _ => rfl⟩
    have hb : (0 : ℚ) ≤ ((tax - effE : ℕ) : ℚ) * s.max_percentage :=
      mul_nonneg (Nat.cast_nonneg _) hm
    have ha : (0 : ℚ) ≤ (tax : ℚ) * s.rate := mul_nonneg (Nat.cast_nonneg _) hr
    have hq : (0 : ℚ) ≤ min ((tax : ℚ) * s.rate) (((tax - effE : ℕ) : ℚ) * s.max_percentage) :=
      le_min ha hb
    exact le_trans (toU32_cast_le hq) (min_le_right _ _)

/-- C6, witness at the 2025 surtax configuration, tax amount 25000, single. -/
theorem c6_witness :
    (0 : ℚ) ≤ config.config2025.income_tax.solidary_addition_config.rate
    ∧ (0 : ℚ) ≤ config.config2025.income_tax.solidary_addition_config.max_percentage
    ∧ config.config2025.income_tax.solidary_addition_config.exemption_level * 2 < 4294967296
    ∧ ((25000 < 19950 → income_tax.calculate_solidarity_addition 25000 false
          config.config2025.income_tax.solidary_addition_config = 0)
      ∧ ((income_tax.calculate_solidarity_addition 25000 false
            config.config2025.income_tax.solidary_addition_config : ℚ)
          ≤ ((25000 - 19950 : ℕ) : ℚ)
            * config.config2025.income_tax.solidary_addition_config.max_percentage)
      ∧ (19950 ≤ 25000 → income_tax.calculate_solidarity_addition 25000 false
            config.config2025.income_tax.solidary_addition_config
          = toU32 (min ((25000 : ℚ)
              * config.config2025.income_tax.solidary_addition_config.rate)
            (((25000 - 19950 : ℕ) : ℚ)
              * config.config2025.income_tax.solidary_addition_config.max_percentage)))) := by
  refine ⟨by norm_num [config.config2025], by norm_num [config.config2025],
    by norm_num [config.config2025], ?_⟩
  exact c6_surtax_characterization 25000 false
    config.config2025.income_tax.solidary_addition_config 19950
    (by norm_num [config.config2025]) (by norm_num [config.config2025])
    (by norm_num [config.config2025]) (by norm_num [config.config2025])

/-- C7, counterexample: at taxable income 140008 (2024 configuration) the
married tax including surtax is 37681, while twice the single-filer tax on
half the income is 2 * 18840 = 37680: the doubled-exemption surtax on the
doubled tax gains one unit over twice the truncated single surtax. -/
theorem c7_counterexample :
    income_tax.calculate config.config2024.income_tax 140008 true
      ≠ 2 * income_tax.calculate config.config2024.income_tax (140008 / 2) false := by
  rw [ev_c7_married, show (140008 / 2 : ℕ) = 70004 by norm_num, ev_c7_single]
  decide

/-- C7 (amended): the splitting invariant holds exactly for the base income
tax before the surtax: `calculate_income_tax(income, split=true)` equals twice
the single-filer base tax on `income / 2`, whenever that base tax fits below
`2^31` (so the `u32` doubling cannot wrap). -/
theorem c7_amended_splitting_base_tax :
    ∀ (c : IncomeTaxConfig) (income : ℕ),
      income_tax.calculate_income_tax c (income / 2) false < 2147483648 →
      income_tax.calculate_income_tax c income true
        = 2 * income_tax.calculate_income_tax c (income / 2) false := by
  intro c income h
  rw [calculate_income_tax_false_eq] at h ⊢
  rw [calculate_income_tax_true_eq]
  rw [Nat.mod_eq_of_lt (by omega)]
  omega

/-- C7, witness at the 2025 configuration and income 0. -/
theorem c7_witness :
    income_tax.calculate_income_tax config.config2025.income_tax (0 / 2) false < 2147483648
    ∧ income_tax.calculate_income_tax config.config2025.income_tax 0 true
      = 2 * income_tax.calculate_income_tax config.config2025.income_tax (0 / 2) false := by
  have h : income_tax.calculate_income_tax config.config2025.income_tax (0 / 2) false
      < 2147483648 := by
    rw [show (0 / 2 : ℕ) = 0 from rfl, ev_base_tax2025_zero]
    norm_num
  exact ⟨h, c7_amended_splitting_base_tax config.config2025.income_tax 0 h⟩

/-- C10: the social-security computation returns `Ok` on every configuration
and input; its error branch is unreachable. -/
theorem c10_social_security_always_ok :
    ∀ (h : HealthInsuranceConfig) (r : RetirementInsuranceConfig)
      (u : UnemploymentInsuranceConfig) (td : TaxData),
      ∃ v, social_security.calculate h r u td = Except.ok v :=
  fun _ _ _ _ => ⟨_, rfl⟩

theorem deduct_zero_rates {t : TaxRange} (h1 : t.rate_min = 0) (h2 : t.rate_max = 0)
    (income : ℕ) : income_tax.deduct_tax_for_one_range income t = 0 := by
  unfold income_tax.deduct_tax_for_one_range
  split
  · rfl
  · dsimp only
    rw [h1, h2]
    norm_num

theorem deduct_zero_of_le {t : TaxRange} {income : ℕ} (h : income ≤ t.lower_limit) :
    income_tax.deduct_tax_for_one_range income t = 0 := by
  unfold income_tax.deduct_tax_for_one_range
  rw [if_pos h]

/-- C3, counterexample: with income 2000000 would also work, but already at
income 30000 and expenses `u32::MAX` the `u32` addition
`social_security + expenses` wraps (17466-fold smaller sum), the code computes
taxable income 23544 and income tax 2543, while the claim's formula
`max(0, gross - expenses - social_insurance)` gives taxable income 0 and
hence income tax 0. -/
theorem c3_counterexample :
    net_income_germany.calculate config.config2025 ⟨30000, 4294967295, none, false, false⟩
        = .ok ⟨30000, 21001, 6457, 2543⟩
      ∧ (max ((30000 : ℤ) - 4294967295 - 6457) 0).toNat = 0
      ∧ income_tax.calculate config.config2025.income_tax 0 false ≠ 2543 := by
  refine ⟨ev_c3_forward, by decide, ?_⟩
  rw [ev_tax2025_zero]
  decide

/-- C3 (amended): on every successful forward run whose social-insurance total
plus expenses does not overflow `u32`, the taxable income is
`max(0, gross - expenses - social_insurance)` (never negative), the income tax
(with surtax, married flag controlling splitting) is computed on it, and the
returned net income is the `i32` narrowing of
`gross - expenses - social_insurance - income_tax` computed in the wide
integer domain — equal to that exact value whenever it lies in the `i32`
range (it may be negative). -/
theorem c3_amended_forward_characterization :
    ∀ (cfg : Config) (td : TaxData) (r : TaxResult) (ss : ℕ),
      social_security.amount cfg.health_insurance cfg.retirement_insurance
        cfg.unemployment_insurance td = ss →
      ss + td.expenses < 4294967296 →
      net_income_germany.calculate cfg td = .ok r →
      r.social_security_taxes = ss
      ∧ r.income_taxes = income_tax.calculate cfg.income_tax
          (max ((td.income : ℤ) - (td.expenses : ℤ) - (ss : ℤ)) 0).toNat td.married
      ∧ r.net_income = wrap32 ((td.income : ℤ) - (td.expenses : ℤ) - (ss : ℤ)
          - (r.income_taxes : ℤ))
      ∧ (-2147483648 ≤ (td.income : ℤ) - (td.expenses : ℤ) - (ss : ℤ)
            - (r.income_taxes : ℤ) →
          (td.income : ℤ) - (td.expenses : ℤ) - (ss : ℤ) - (r.income_taxes : ℤ)
            < 2147483648 →
          r.net_income = (td.income : ℤ) - (td.expenses : ℤ) - (ss : ℤ)
            - (r.income_taxes : ℤ)) := by
  intro cfg td r ss hss hw hok
  have hguard : ¬(td.expenses < td.income ∧ td.income - td.expenses > 2147483647) := by
    intro hg
    unfold net_income_germany.calculate at hok
    rw [if_pos hg] at hok
    exact absurd hok (by simp)
  have hti : (if (ss + td.expenses) % 4294967296 < td.income
      then td.income - (ss + td.expenses) % 4294967296 else 0)
      = (max ((td.income : ℤ) - (td.expenses : ℤ) - (ss : ℤ)) 0).toNat := by
    rw [Nat.mod_eq_of_lt hw]
    rcases lt_or_le (ss + td.expenses) td.income with h | h
    · rw [if_pos h]
      omega
    · rw [if_neg (not_lt.2 h)]
      omega
  have heq := calculate_ok_eq cfg td hguard hss hti rfl
  rw [hok] at heq
  injection heq with heq
  subst heq
  refine ⟨rfl, rfl, rfl, fun h1 h2 => wrap32_eq_self h1 h2⟩

/-- C3, witness at the 2025 configuration with income 0 and expenses 0. -/
theorem c3_witness :
    social_security.amount config.config2025.health_insurance
        config.config2025.retirement_insurance config.config2025.unemployment_insurance
        ⟨0, 0, none, false, false⟩ = 0
      ∧ 0 + 0 < 4294967296
      ∧ net_income_germany.calculate config.config2025 ⟨0, 0, none, false, false⟩
          = .ok ⟨0, 0, 0, 0⟩
      ∧ ((0 : ℕ) = (0 : ℕ)
        ∧ (0 : ℕ) = income_tax.calculate config.config2025.income_tax
            (max ((0 : ℤ) - (0 : ℤ) - (0 : ℤ)) 0).toNat false
        ∧ (0 : ℤ) = wrap32 ((0 : ℤ) - (0 : ℤ) - (0 : ℤ) - (0 : ℤ))
        ∧ (-2147483648 ≤ (0 : ℤ) - (0 : ℤ) - (0 : ℤ) - (0 : ℤ) →
            (0 : ℤ) - (0 : ℤ) - (0 : ℤ) - (0 : ℤ) < 2147483648 →
            (0 : ℤ) = (0 : ℤ) - (0 : ℤ) - (0 : ℤ) - (0 : ℤ))) := by
  refine ⟨ev_c3w_ss, by norm_num, ev_c3w_forward, ?_⟩
  exact c3_amended_forward_characterization config.config2025 ⟨0, 0, none, false, false⟩
    ⟨0, 0, 0, 0⟩ 0 ev_c3w_ss (by norm_num) ev_c3w_forward

/-- C4: for every bracket list of well-formed ranges, the single-filer base
income tax (before surtax) is the floor of the exact bracket-interpolation sum
of the specification (whenever that sum is representable in `u32`); and for
the configured years, every income below the first bracket's upper limit
(12096 in 2025, 11784 in 2024) yields zero base tax. -/
theorem c4_progressive_tax_formula :
    (∀ (c : IncomeTaxConfig) (income : ℕ),
      (∀ t ∈ c.tax_ranges, range_ok t) →
      income_tax_spec_sum c income < 4294967296 →
      ((income_tax.calculate_income_tax c income false : ℕ) : ℤ)
        = ⌊income_tax_spec_sum c income⌋)
    ∧ (∀ income : ℕ, income < 12096 →
        income_tax.calculate_income_tax config.config2025.income_tax income false = 0)
    ∧ (∀ income : ℕ, income < 11784 →
        income_tax.calculate_income_tax config.config2024.income_tax income false = 0) := by
  refine ⟨?_, ?_, ?_⟩
  · intro c income hok hlt
    rw [calculate_income_tax_false_eq]
    have hsum_eq : (c.tax_ranges.map (income_tax.deduct_tax_for_one_range income)).sum
        = income_tax_spec_sum c income := by
      unfold income_tax_spec_sum
      congr 1
      apply List.map_congr_left
      intro t ht
      exact deduct_eq_spec_term (hok t ht) income
    have h0 : 0 ≤ income_tax_spec_sum c income := by
      rw [← hsum_eq]
      exact sum_deduct_nonneg income c.tax_ranges hok
    rw [hsum_eq]
    exact toU32_int_eq h0 hlt
  · intro income hi
    rw [calculate_income_tax_false_eq]
    have hsum : (config.config2025.income_tax.tax_ranges.map
        (income_tax.deduct_tax_for_one_range income)).sum = 0 := by
      simp only [config.config2025, List.map_cons, List.map_nil, List.sum_cons, List.sum_nil]
      rw [deduct_zero_rates rfl rfl income, deduct_zero_of_le (by omega : income ≤ 12096),
        deduct_zero_of_le (by omega : income ≤ 17444),
        deduct_zero_of_le (by omega : income ≤ 68480),
        deduct_zero_of_le (by omega : income ≤ 277825)]
      norm_num
    rw [hsum]
    norm_num [toU32]
  · intro income hi
    rw [calculate_income_tax_false_eq]
    have hsum : (config.config2024.income_tax.tax_ranges.map
        (income_tax.deduct_tax_for_one_range income)).sum = 0 := by
      simp only [config.config2024, List.map_cons, List.map_nil, List.sum_cons, List.sum_nil]
      rw [deduct_zero_rates rfl rfl income, deduct_zero_of_le (by omega : income ≤ 11784),
        deduct_zero_of_le (by omega : income ≤ 17005),
        deduct_zero_of_le (by omega : income ≤ 66760),
        deduct_zero_of_le (by omega : income ≤ 277825)]
      norm_num
    rw [hsum]
    norm_num [toU32]

/-- C4, witness at the 2025 configuration and taxable income 20000. -/
theorem c4_witness :
    (∀ t ∈ config.config2025.income_tax.tax_ranges, range_ok t)
    ∧ income_tax_spec_sum config.config2025.income_tax 20000 < 4294967296
    ∧ ((income_tax.calculate_income_tax config.config2025.income_tax 20000 false : ℕ) : ℤ)
        = ⌊income_tax_spec_sum config.config2025.income_tax 20000⌋ := by
  have hok : ∀ t ∈ config.config2025.income_tax.tax_ranges, range_ok t := by
    intro t ht
    simp only [config.config2025, List.mem_cons, List.not_mem_nil, or_false] at ht
    rcases ht with rfl | rfl | rfl | rfl | rfl <;> norm_num [range_ok]
  have hlt : income_tax_spec_sum config.config2025.income_tax 20000 < 4294967296 := by
    unfold income_tax_spec_sum
    simp only [config.config2025, List.map_cons, List.map_nil, List.sum_cons, List.sum_nil]
    norm_num [min_def, max_def]
  exact ⟨hok, hlt, c4_progressive_tax_formula.1 config.config2025.income_tax 20000 hok hlt⟩

/-- Invariant of the reverse solver's loop, by induction on the fuel: every
`Ok` answer was produced at the exact-match test, and every error is an error
of the forward calculation at one of the visited estimations. -/
theorem c8_loop_spec {cfg : Config} {td : TaxData} (hi : td.income < 2147483648) :
    ∀ (fuel : ℕ) (est : ℚ),
      (∀ r : TaxResult,
        net_income_germany.calculate_reverse_loop cfg td fuel est = some (.ok r) →
        r.net_income = (td.income : ℤ)
        ∧ (0 ≤ r.gross_income →
            net_income_germany.calculate cfg { td with income := r.gross_income.toNat }
              = .ok r))
      ∧ (∀ e : String,
        net_income_germany.calculate_reverse_loop cfg td fuel est = some (.error e) →
        ∃ g : ℕ, net_income_germany.calculate cfg { td with income := g } = .error e) := by
  intro fuel
  induction fuel with
  | zero =>
    intro est
    constructor
    · intro r h
      exact absurd h (by simp [net_income_germany.calculate_reverse_loop])
    · intro e h
      exact absurd h (by simp [net_income_germany.calculate_reverse_loop])
  | succ n ih =>
    intro est
    simp only [net_income_germany.calculate_reverse_loop]
    cases hcalc : net_income_germany.calculate cfg { td with income := toU32 est } with
    | error e' =>
      constructor
      · intro r h
        simp at h
      · intro e h
        simp only [Option.some.injEq] at h
        injection h with h
        exact ⟨toU32 est, by rw [hcalc, h]⟩
    | ok r' =>
      dsimp only
      obtain ⟨hg, hn⟩ := calculate_ok_fields hcalc
      dsimp only at hg hn
      rcases eq_or_ne (wrap32 (r'.net_income - wrap32 (td.income : ℤ))) 0 with hd | hd
      · rw [if_pos hd]
        constructor
        · intro r h
          simp only [Option.some.injEq] at h
          injection h with h
          subst h
          have hnb1 : -2147483648 ≤ r'.net_income := by rw [hn]; exact wrap32_lb _
          have hnb2 : r'.net_income < 2147483648 := by rw [hn]; exact wrap32_ub _
          have hb3 := wrap32_lb (td.income : ℤ)
          have hb4 := wrap32_ub (td.income : ℤ)
          have hz : r'.net_income - wrap32 (td.income : ℤ) = 0 :=
            (wrap32_eq_zero_iff (by omega) (by omega)).1 hd
          have hw : wrap32 (td.income : ℤ) = (td.income : ℤ) :=
            wrap32_eq_self (by omega) (by exact_mod_cast hi)
          constructor
          · omega
          · intro hge
            have hlt : ((toU32 est : ℕ) : ℤ) < 4294967296 := by
              have := toU32_lt est
              exact_mod_cast this
            have hww : wrap32 ((toU32 est : ℕ) : ℤ) = ((toU32 est : ℕ) : ℤ) :=
              wrap32_natCast_of_nonneg hlt (hg ▸ hge)
            have htn : r'.gross_income.toNat = toU32 est := by
              rw [hg, hww]
              exact Int.toNat_natCast _
            rw [htn]
            exact hcalc
        · intro e h
          simp at h
      · rw [if_neg hd]
        exact ih _

/-- C8: partial correctness of the reverse solver (for representable targets,
`income < 2^31`): whenever it answers `Ok`, the outcome's net income equals
the target exactly, and, provided the returned gross income is non-negative
(so that it is a valid `u32` input), re-running the forward calculation on it
reproduces the very same outcome; whenever the forward calculation fails
during the search, the solver fails with that same error. -/
theorem c8_solver_partial_correctness :
    ∀ (cfg : Config) (td : TaxData) (fuel : ℕ),
      td.income < 2147483648 →
      (∀ r : TaxResult,
        net_income_germany.calculate_reverse cfg td fuel = some (.ok r) →
        r.net_income = (td.income : ℤ)
        ∧ (0 ≤ r.gross_income →
            net_income_germany.calculate cfg { td with income := r.gross_income.toNat }
              = .ok r))
      ∧ (∀ e : String,
        net_income_germany.calculate_reverse cfg td fuel = some (.error e) →
        ∃ g : ℕ, net_income_germany.calculate cfg { td with income := g } = .error e) := by
  intro cfg td fuel hi
  exact c8_loop_spec hi fuel _

/-- C8, witness at the 2025 configuration with target net income 27295. -/
theorem c8_witness :
    (⟨27295, 1500, none, false, false⟩ : TaxData).income < 2147483648
    ∧ ((∀ r : TaxResult,
        net_income_germany.calculate_reverse config.config2025
            ⟨27295, 1500, none, false, false⟩ 20 = some (.ok r) →
        r.net_income = ((⟨27295, 1500, none, false, false⟩ : TaxData).income : ℤ)
        ∧ (0 ≤ r.gross_income →
            net_income_germany.calculate config.config2025
                { (⟨27295, 1500, none, false, false⟩ : TaxData) with
                  income := r.gross_income.toNat } = .ok r))
      ∧ (∀ e : String,
        net_income_germany.calculate_reverse config.config2025
            ⟨27295, 1500, none, false, false⟩ 20 = some (.error e) →
        ∃ g : ℕ, net_income_germany.calculate config.config2025
            { (⟨27295, 1500, none, false, false⟩ : TaxData) with income := g }
          = .error e)) := by
  exact ⟨by decide, c8_solver_partial_correctness config.config2025
    ⟨27295, 1500, none, false, false⟩ 20 (by decide)⟩

/-- C9, counterexample: with the 2025 configuration (employed, single, no
expenses) the net income at gross income 90300 is 53544, but at gross income
90301 it is 53543: the net income is not monotonically non-decreasing in the
gross income, because the income-tax truncation and the surtax truncation
jump at the same gross-income step. -/
theorem c9_counterexample :
    net_income_germany.calculate config.config2025 ⟨90300, 0, none, false, false⟩
        = .ok ⟨90300, 53544, 16798, 19958⟩
      ∧ net_income_germany.calculate config.config2025 ⟨90301, 0, none, false, false⟩
        = .ok ⟨90301, 53543, 16798, 19960⟩
      ∧ (53543 : ℤ) < 53544 :=
  ⟨ev_c9_forward_90300, ev_c9_forward_90301, by norm_num⟩

/-- C9 (amended): the income tax including surtax is monotonically
non-decreasing in the taxable income, for every configuration satisfying the
documented well-formedness invariants and every pair of incomes below `2^31`;
the monotonicity of the net income in the gross income is dropped, as it fails
on the shipped 2025 configuration. -/
theorem c9_amended_tax_monotone :
    ∀ (c : IncomeTaxConfig) (i j : ℕ) (together : Bool),
      valid_income_tax_config c → i ≤ j → j < 2147483648 →
      income_tax.calculate c i together ≤ income_tax.calculate c j together :=
  fun _ _ _ together hv hij hj => income_tax_calculate_mono hv together hij hj

/-- C9, witness at the 2025 configuration, incomes 10000 and 20000. -/
theorem c9_witness :
    valid_income_tax_config config.config2025.income_tax
    ∧ (10000 : ℕ) ≤ 20000 ∧ (20000 : ℕ) < 2147483648
    ∧ income_tax.calculate config.config2025.income_tax 10000 false
        ≤ income_tax.calculate config.config2025.income_tax 20000 false := by
  have hv : valid_income_tax_config config.config2025.income_tax := by
    refine ⟨?_, ?_, ?_, ?_, ?_⟩
    · intro t ht
      simp only [config.config2025, List.mem_cons, List.not_mem_nil, or_false] at ht
      rcases ht with rfl | rfl | rfl | rfl | rfl <;> norm_num [range_ok]
    · simp only [config.config2025]
      norm_num [ranges_chained]
    · norm_num [config.config2025]
    · norm_num [config.config2025]
    · norm_num [config.config2025]
  exact ⟨hv, by norm_num, by norm_num,
    c9_amended_tax_monotone config.config2025.income_tax 10000 20000 false hv
      (by norm_num) (by norm_num)⟩
